import Mathlib

/-
Verification of the owui-playwright-presenton automation core.

The repository drives two web applications with Playwright: it extracts an
LLM response from a chat UI (OpenWebUIExtractor) and then drives a
presentation wizard (PresentonCreator).  This file gives a shallow
embedding of the pure decision logic of that code:

* the DOM is modelled as a query table from selector strings to lists of
  matched elements (an element carries its text content, visibility and
  enabled state — the only attributes the source ever reads);
* JavaScript string operations (trim, split, includes, toLowerCase,
  length) are implemented over the character list of a Lean String,
  mirroring their JS semantics;
* the polling loops are modelled as a tail-recursive loop over elapsed
  milliseconds: each tick evaluates the predicate against the DOM at that
  instant and otherwise advances time by the sleep interval;
* asynchronous interaction (clicks, keystrokes, navigation) is erased:
  only the selection and control-flow decisions of the source remain.

Every definition cites the source location it embeds
(src/src/index.ts of the repository, which concatenates the
automator entry point, two revisions of the extractor, the creator and
the shared types).
-/

/-! ## JavaScript string semantics over character lists -/

/-- Drop leading whitespace characters (helper for the JS `trim` model). -/
def trimLeadingWs : List Char → List Char
  | [] => []
  | c :: rest => if c.isWhitespace then trimLeadingWs rest else c :: rest

/-- JS `String.prototype.trim`: remove whitespace from both ends. -/
def jsTrim (s : String) : String :=
  String.mk ((trimLeadingWs ((trimLeadingWs s.data.reverse)).reverse))

/-- Split a character list at newline characters (helper for JS `split`). -/
def splitLinesChars : List Char → List (List Char)
  | [] => [[]]
  | c :: rest =>
    let r := splitLinesChars rest
    if c = '\n' then [] :: r
    else match r with
      | [] => [[c]]
      | l :: ls => (c :: l) :: ls

/-- JS `s.split('\n')`: split into lines, keeping empty segments. -/
def jsSplitLines (s : String) : List String := (splitLinesChars s.data).map String.mk

/-- Whether the first list is an initial segment of the second. -/
def charsStartWith : List Char → List Char → Bool
  | [], _ => true
  | _ :: _, [] => false
  | n :: ns, h :: hs => n = h && charsStartWith ns hs

/-- Whether `needle` occurs as a contiguous segment of the second list. -/
def includesAux (needle : List Char) : List Char → Bool
  | [] => charsStartWith needle []
  | c :: rest => charsStartWith needle (c :: rest) || includesAux needle rest

/-- JS `s.includes(sub)`: substring containment. -/
def jsIncludes (s sub : String) : Bool := includesAux sub.data s.data

/-- JS `s.toLowerCase()` (ASCII case folding, as used by the source). -/
def jsToLower (s : String) : String := String.mk (s.data.map Char.toLower)

/-- JS `s.length` (the source only compares lengths of ASCII text). -/
def jsLength (s : String) : Nat := s.data.length

/-! ## DOM model

The source interrogates the page exclusively through selector queries
(`page.locator(sel)`, `document.querySelectorAll(sel)`) and then reads
`count()`, `first()`, `textContent`, `isEnabled()`, `isVisible()` /
`offsetParent`.  A DOM snapshot is therefore modelled as a function from
the raw selector string to the ordered list of matched elements.
Selector strings are opaque keys: the embedding does not interpret CSS,
so a table may, like a real page, match `.message` without matching
`.message:last-child` (the element need not be the last child of its
parent). -/

/-- One matched element: the three attributes the source reads. -/
structure DomElement where
  textContent : Option String
  visible : Bool
  enabled : Bool
deriving Repr, DecidableEq

/-- A DOM snapshot: selector string to ordered match list. -/
structure Dom where
  query : String → List DomElement

/-! ## State transition poller

Both cited wait sites share one loop shape
(src/src/index.ts lines 2835-2853, `waitForPresentationPageRedirect`,
timeout 60000 ms / sleep 2000 ms; and lines 3165-3247,
`waitForGeneratePresentationButtonToBeReady`, timeout 900000 ms / sleep
10000 ms):

  while (Date.now() - startTime < maxWaitTime && !done)
    evaluate the predicate against the current DOM; if satisfied, stop;
    otherwise sleep the interval and re-check.

`pollFrom` embeds that loop with predicate evaluation taking no time: the
predicate is a function of the elapsed milliseconds (the DOM changes
between ticks), and each tick that fails adds the sleep interval. -/

/-- Outcome of one polling run. -/
inductive PollOutcome
  | Satisfied
  | TimedOut
deriving Repr, DecidableEq

/-- The polling loop from the point where `elapsed` ms have passed.
Returns the outcome and the elapsed time at exit. -/
def pollFrom (pred : Nat → Bool) (timeout interval : Nat) (hpos : 0 < interval)
    (elapsed : Nat) : PollOutcome × Nat :=
  if _h : elapsed < timeout then
    if pred elapsed then (PollOutcome.Satisfied, elapsed)
    else pollFrom pred timeout interval hpos (elapsed + interval)
  else (PollOutcome.TimedOut, elapsed)
termination_by timeout - elapsed
decreasing_by omega

/-- A full polling run, started at elapsed time zero. -/
def pollUntil (pred : Nat → Bool) (timeout interval : Nat) (hpos : 0 < interval) :
    PollOutcome × Nat :=
  pollFrom pred timeout interval hpos 0

/-- Predicate of the redirect wait (src/src/index.ts line 2839): the
current URL contains both `/presentation` and `id=`.  `urlAt t` is the
page URL after `t` elapsed milliseconds. -/
def presentationRedirectPredicate (urlAt : Nat → String) (t : Nat) : Bool :=
  jsIncludes (urlAt t) "/presentation" && jsIncludes (urlAt t) "id="

/-- `waitForPresentationPageRedirect` (src/src/index.ts lines 2828-2863):
a 60 s poll at 2 s intervals on the redirect predicate. -/
def waitForPresentationPageRedirect (urlAt : Nat → String) : PollOutcome × Nat :=
  pollUntil (presentationRedirectPredicate urlAt) 60000 2000 (by decide)

/-- Predicate of the generate-button wait (src/src/index.ts lines
3167-3219): some visible button with non-empty trimmed text whose
lower-cased text pairs generate/create/build with presentation is
enabled.  `buttonsAt t` lists the buttons of the DOM after `t` ms. -/
def generateButtonReadyPredicate (buttonsAt : Nat → List DomElement) (t : Nat) : Bool :=
  (buttonsAt t).any (fun b =>
    match b.textContent with
    | none => false
    | some raw =>
      let txt := jsTrim raw
      let lower := jsToLower txt
      decide (txt ≠ "") && b.visible &&
        (jsIncludes lower "generate" && jsIncludes lower "presentation" ||
         jsIncludes lower "create" && jsIncludes lower "presentation" ||
         jsIncludes lower "build" && jsIncludes lower "presentation") && b.enabled)

/-- `waitForGeneratePresentationButtonToBeReady` (src/src/index.ts lines
3155-3250): a 15 min poll at 10 s intervals on the button predicate. -/
def waitForGeneratePresentationButtonToBeReady (buttonsAt : Nat → List DomElement) :
    PollOutcome × Nat :=
  pollUntil (generateButtonReadyPredicate buttonsAt) 900000 10000 (by decide)

/-! ## Selector cascades of the extraction flow -/

/-- Chat input cascade (src/src/index.ts lines 230-246; identical in the
second extractor revision, lines 1097-1113). -/
def chatInputSelectors : List String :=
  ["textarea[placeholder*=\"Send a message\"]",
   "textarea[placeholder*=\"Ask\"]",
   "input[type=\"text\"][placeholder*=\"message\"]",
   "textarea[placeholder*=\"Type\"]",
   "textarea[placeholder*=\"Enter\"]",
   "textarea[placeholder*=\"message\"]",
   ".chat-input textarea",
   ".message-input textarea",
   "#chat-input",
   "textarea:not([placeholder*=\"search\"]):not([placeholder*=\"Search\"])",
   "input[type=\"text\"]:not([placeholder*=\"search\"]):not([placeholder*=\"Search\"])",
   "textarea.w-full",
   "textarea[rows]",
   "div[contenteditable=\"true\"]"]

/-- Send button cascade (src/src/index.ts lines 295-306). -/
def sendButtonSelectors : List String :=
  ["button[type=\"submit\"]",
   "button:has-text(\"Send\")",
   "button[aria-label*=\"Send\"]",
   "button[title*=\"Send\"]",
   ".send-button",
   "button:has(svg)",
   "button[disabled=false]:last-child",
   "button.bg-black",
   "button.rounded-lg"]

/-- Response selector cascade of extraction strategy 1
(src/src/index.ts lines 869-888; identical at lines 1592-1611). -/
def responseSelectors : List String :=
  ["[data-testid=\"message\"]:last-child .content",
   ".message:last-child .content",
   ".chat-message:last-child .text",
   ".assistant-message:last-child",
   ".response:last-child",
   ".message-content:last-child",
   ".prose:last-child",
   ".markdown:last-child",
   ".message:last-child .prose",
   ".message:last-child .markdown",
   "div[data-message-id]:last-child .prose",
   ".message:last-child",
   "[data-testid=\"message\"]:last-child"]

/-- Message container shapes of extraction strategy 2
(src/src/index.ts lines 912-917; identical at lines 1635-1640). -/
def messageSelectors : List String :=
  [".message", "[data-testid=\"message\"]", ".chat-message", ".prose"]

/-- Generate/create button cascade of the creator
(src/src/index.ts lines 2013-2030). -/
def generateButtons : List String :=
  ["button:has-text(\"Generate\")",
   "button:has-text(\"Create\")",
   "button:has-text(\"Build\")",
   "button:has-text(\"Make\")",
   "button:has-text(\"Process\")",
   "button:has-text(\"Convert\")",
   "button:has-text(\"Transform\")",
   "button:has-text(\"Submit\")",
   "button:has-text(\"Next\")",
   "button[type=\"submit\"]",
   ".generate-btn",
   ".create-btn",
   ".submit-btn",
   "button[aria-label*=\"Generate\"]",
   "button[aria-label*=\"Create\"]",
   "button[aria-label*=\"Next\"]"]

/-! ## Response extraction pipeline

`extractLatestResponse` (src/src/index.ts lines 865-971; the second
extractor revision at lines 1588-1694 is character-identical) runs three
strategies in order and throws only after all three fail. -/

/-- Provenance: which extraction strategy produced the response. -/
inductive Strategy
  | selectorCascade
  | structuralScan
  | pageTextMining
deriving Repr, DecidableEq

/-- Strategy 1 loop (src/src/index.ts lines 890-905): walk the response
selectors; on the first selector with a match whose first element has
text with non-empty trim, return the trimmed text; a selector with no
match, null text or blank text falls through to the next selector. -/
def tryResponseSelectors (dom : Dom) : List String → Option String
  | [] => none
  | s :: rest =>
    match (dom.query s).head? with
    | none => tryResponseSelectors dom rest
    | some e =>
      match e.textContent with
      | none => tryResponseSelectors dom rest
      | some t =>
        if 0 < jsLength (jsTrim t) then some (jsTrim t)
        else tryResponseSelectors dom rest

/-- The per-message filter of strategy 2 (src/src/index.ts lines
925-930): trimmed text, non-empty, longer than 50 characters, and not
containing the literal string `Create a presentation`.  Note that the
source compares against that constant, not against the prompt that was
actually submitted. -/
def qualifyingMessage (e : DomElement) : Option String :=
  match e.textContent with
  | none => none
  | some raw =>
    let t := jsTrim raw
    if decide (t ≠ "") && decide (50 < jsLength t) &&
        !(jsIncludes t "Create a presentation") then some t
    else none

/-- The backward walk of strategy 2 (src/src/index.ts lines 923-931):
`for (let i = messages.length - 1; i >= 0; i--)`, returning the first
qualifying message text found. -/
def scanBackwardFrom (msgs : List DomElement) : Nat → Option String
  | 0 => (msgs.get? 0).bind qualifyingMessage
  | i + 1 =>
    match (msgs.get? (i + 1)).bind qualifyingMessage with
    | some t => some t
    | none => scanBackwardFrom msgs i

/-- Strategy 2 outer loop (src/src/index.ts lines 919-933): for each
container shape with at least one match, walk its matches from the end
backward; if none qualifies, continue with the next container shape. -/
def structuralScanLoop (dom : Dom) : List String → Option String
  | [] => none
  | s :: rest =>
    let msgs := dom.query s
    if msgs.isEmpty then structuralScanLoop dom rest
    else
      match scanBackwardFrom msgs (msgs.length - 1) with
      | some t => some t
      | none => structuralScanLoop dom rest

/-- `page.textContent('body')` (src/src/index.ts line 949). -/
def pageBodyText (dom : Dom) : Option String :=
  (dom.query "body").head?.bind DomElement.textContent

/-- Strategy 3 (src/src/index.ts lines 950-968): split the page text
into lines, keep non-blank lines, keep lines longer than 100 characters
that contain none of the UI chrome strings, and return the last one. -/
def minePageTextLines (pageText : String) : Option String :=
  let lines := (jsSplitLines pageText).filter (fun l => 0 < jsLength (jsTrim l))
  let potential := lines.filter (fun l =>
    decide (100 < jsLength l) &&
    !(jsIncludes l "Send a message") &&
    !(jsIncludes l "Enter") &&
    !(jsIncludes l "Type") &&
    !(jsIncludes l "Sign in"))
  potential.getLast?

/-- The message of the error thrown on full extraction failure
(src/src/index.ts line 970). -/
def extractionFailedMessage : String :=
  "Could not extract LLM response from the page. The response may not have generated properly or the page structure is different than expected."

/-- `extractLatestResponse` (src/src/index.ts lines 865-971): the three
strategies in their fixed order, first non-empty result wins, the
extraction-failed error only after all three produced nothing.  The
result is tagged with the strategy that produced it. -/
def extractLatestResponse (dom : Dom) : Except String (String × Strategy) :=
  match tryResponseSelectors dom responseSelectors with
  | some t => Except.ok (t, Strategy.selectorCascade)
  | none =>
    match structuralScanLoop dom messageSelectors with
    | some t => Except.ok (t, Strategy.structuralScan)
    | none =>
      match (pageBodyText dom).bind minePageTextLines with
      | some t => Except.ok (t, Strategy.pageTextMining)
      | none => Except.error extractionFailedMessage

/-- Strategy 1 as a first-hit scan over the cascade: the first selector
whose attempt yields text wins. -/
def selectorAttempt (dom : Dom) (s : String) : Option String :=
  (dom.query s).head?.bind (fun e =>
    e.textContent.bind (fun t =>
      if 0 < jsLength (jsTrim t) then some (jsTrim t) else none))

/-- Result of extraction strategy 1 on a DOM snapshot. -/
def strategyOne (dom : Dom) : Option String :=
  responseSelectors.findSome? (selectorAttempt dom)

/-- One container shape of strategy 2: the first qualifying message when
the matches are walked from the end backward. -/
def containerScan (dom : Dom) (s : String) : Option String :=
  (dom.query s).reverse.findSome? qualifyingMessage

/-- Result of extraction strategy 2 on a DOM snapshot. -/
def strategyTwo (dom : Dom) : Option String :=
  messageSelectors.findSome? (containerScan dom)

/-- Result of extraction strategy 3 on a DOM snapshot. -/
def strategyThree (dom : Dom) : Option String :=
  (pageBodyText dom).bind minePageTextLines

/-! ## Sending a prompt (src/src/index.ts lines 216-339)

`sendPromptAndGetResponse` fills the chat input found by the input
cascade (throwing when the cascade exhausts, line 285), clicks the first
send-button match or falls back to the Enter key (lines 308-330), waits,
and runs `extractLatestResponse`.  The embedding keeps the decisions and
the error path; the keystrokes themselves are erased, and the DOM is the
snapshot extraction finally observes. -/

/-- The static part of the error thrown when the chat input cascade
exhausts (src/src/index.ts line 285; the source appends a dump of the
available input elements). -/
def chatInputNotFoundMessage : String := "Could not find chat input field"

/-- The input cascade (src/src/index.ts lines 251-282): first selector
with at least one match provides the input element. -/
def findChatInput (dom : Dom) : Option DomElement :=
  chatInputSelectors.findSome? (fun s => (dom.query s).head?)

/-- Lines 284-291: exhaustion of the input cascade throws. -/
def locateChatInput (dom : Dom) : Except String DomElement :=
  match findChatInput dom with
  | some e => Except.ok e
  | none => Except.error chatInputNotFoundMessage

/-- The send-button cascade (src/src/index.ts lines 309-323): first
selector with at least one match is clicked. -/
def findSendButton (dom : Dom) : Option DomElement :=
  sendButtonSelectors.findSome? (fun s => (dom.query s).head?)

/-- How the message left the input field. -/
inductive SendMethod
  | viaSendButton (button : DomElement)
  | viaEnterKey
deriving Repr, DecidableEq

/-- Lines 308-330: click the first send-button match, else press Enter;
exhaustion of the send cascade is not an error. -/
def sendMessage (dom : Dom) : SendMethod :=
  match findSendButton dom with
  | some b => SendMethod.viaSendButton b
  | none => SendMethod.viaEnterKey

/-- The error-path skeleton of `sendPromptAndGetResponse`
(src/src/index.ts lines 216-339): input-cascade exhaustion aborts with
its error; otherwise the send step cannot fail and the extraction result
(or its error) is returned to the caller. -/
def sendPromptAndGetResponse (dom : Dom) : Except String (String × Strategy) :=
  match locateChatInput dom with
  | Except.error e => Except.error e
  | Except.ok _ => extractLatestResponse dom

/-! ## The generate/create button cascade of the creator -/

/-- `findAndClickGenerateButton` inner loop (src/src/index.ts lines
2032-2056): for each selector with at least one match, test
`isEnabled()` on the first match only; a disabled first match falls
through to the next selector (line 2050).  An enabled first match is
clicked (line 2043) inside the try/catch of the loop body: the
Playwright click waits for actionability, so a click on an invisible
element raises, the catch at lines 2053-2055 swallows the error, and
the loop continues with the next selector.  The loop therefore returns
(clicks) a button exactly when it is the first match of the first
selector whose first match is both enabled and visible. -/
def findGenerateButtonLoop (dom : Dom) : List String → Option DomElement
  | [] => none
  | s :: rest =>
    match (dom.query s).head? with
    | none => findGenerateButtonLoop dom rest
    | some b =>
      if b.enabled then
        if b.visible then some b
        else findGenerateButtonLoop dom rest
      else findGenerateButtonLoop dom rest

/-- `findAndClickGenerateButton` (src/src/index.ts lines 2010-2059):
the clicked element, or none when the cascade exhausts (the source then
only logs and returns). -/
def findAndClickGenerateButton (dom : Dom) : Option DomElement :=
  findGenerateButtonLoop dom generateButtons

/-! ## Login check (two revisions in the source) -/

/-- Login indicators of the first extractor revision
(src/src/index.ts lines 346-355). -/
def loginIndicatorsV1 : List String :=
  ["input[type=\"email\"]",
   "input[type=\"password\"]",
   "text=Sign in",
   "text=Login",
   "button:has-text(\"Sign in\")",
   "form[action*=\"login\"]",
   ".login-form",
   "#login-form"]

/-- Chat-interface indicators of the first extractor revision
(src/src/index.ts lines 357-369). -/
def chatIndicatorsV1 : List String :=
  ["textarea[placeholder*=\"Send a message\"]",
   "textarea[placeholder*=\"Ask\"]",
   "input[type=\"text\"][placeholder*=\"message\"]",
   "textarea[placeholder*=\"Type\"]",
   "textarea[placeholder*=\"Enter\"]",
   "textarea[placeholder*=\"message\"]",
   ".chat-input",
   ".message-input",
   "textarea.w-full",
   "textarea[rows]",
   "div[contenteditable=\"true\"]"]

/-- Login indicators of the second extractor revision
(src/src/index.ts lines 1213-1219). -/
def loginIndicatorsV2 : List String :=
  ["input[type=\"email\"]",
   "input[type=\"password\"]",
   "text=Sign in",
   "text=Login",
   "button:has-text(\"Sign in\")"]

/-- Chat-interface indicators of the second extractor revision
(src/src/index.ts lines 1221-1227). -/
def chatIndicatorsV2 : List String :=
  ["textarea[placeholder*=\"Send a message\"]",
   "textarea[placeholder*=\"Ask\"]",
   "input[type=\"text\"][placeholder*=\"message\"]",
   ".chat-input",
   ".message-input"]

/-- Whether any selector of the list matches at least one element
(`locator(sel).count() > 0`, with query failures skipped). -/
def anySelectorMatches (dom : Dom) (sels : List String) : Bool :=
  sels.any (fun s => !(dom.query s).isEmpty)

/-- URL pre-check of the first revision (src/src/index.ts line 377). -/
def loginUrlDetected (url : String) : Bool :=
  jsIncludes url "/auth" || jsIncludes url "/login" || jsIncludes url "/signin"

/-- Which branch the login check takes. -/
inductive LoginAction
  | proceedWithoutLogin
  | attemptLogin
  | signupFallback
  | proceedWithDiagnostic
deriving Repr, DecidableEq

/-- `handleLoginIfRequired`, first revision (src/src/index.ts lines
341-464): a login-pattern URL routes straight to credentialed login (or
the signup fallback without credentials); otherwise chat indicators are
checked before login indicators; with neither, the flow continues after
a diagnostic snapshot.  The three chat-detection retries collapse under
a fixed DOM snapshot. -/
def handleLoginIfRequiredV1 (url : String) (dom : Dom) (hasCreds : Bool) : LoginAction :=
  if loginUrlDetected url then
    if hasCreds then LoginAction.attemptLogin else LoginAction.signupFallback
  else if anySelectorMatches dom chatIndicatorsV1 then LoginAction.proceedWithoutLogin
  else if anySelectorMatches dom loginIndicatorsV1 then
    if hasCreds then LoginAction.attemptLogin else LoginAction.signupFallback
  else LoginAction.proceedWithDiagnostic

/-- `handleLoginIfRequired`, second revision (src/src/index.ts lines
1208-1260): chat indicators are checked first and win outright; login
indicators are only consulted when no chat indicator matches. -/
def handleLoginIfRequiredV2 (dom : Dom) (hasCreds : Bool) : LoginAction :=
  if anySelectorMatches dom chatIndicatorsV2 then LoginAction.proceedWithoutLogin
  else if anySelectorMatches dom loginIndicatorsV2 then
    if hasCreds then LoginAction.attemptLogin else LoginAction.signupFallback
  else LoginAction.proceedWithDiagnostic

/-! ## Parsing and the demo fallback (src/src/index.ts lines 82-154) -/

/-- One slide (src/src/index.ts lines 3638-3641, `SlideData`). -/
structure SlideData where
  title : String
  content : String
deriving Repr, DecidableEq

/-- src/src/index.ts lines 3633-3636, `PresentationData`. -/
structure PresentationData where
  title : String
  slides : List SlideData
deriving Repr, DecidableEq

/-- Match one-or-more whitespace at the head of the list and consume the
whole run (the regex fragment `\s+`). -/
def matchWsRun : List Char → Option (List Char)
  | [] => none
  | c :: rest => if c.isWhitespace then some (trimLeadingWs rest) else none

/-- The regex `/^\x23\x7b1,2\x7d\s+/` (one or two hash marks then
whitespace, greedy): the remainder after the match, or none. -/
def stripHashHeaderChars : List Char → Option (List Char)
  | '#' :: '#' :: rest =>
    (match matchWsRun rest with
     | some r => some r
     | none => matchWsRun ('#' :: rest))
  | '#' :: rest => matchWsRun rest
  | _ => none

/-- The regex `/^\d+\.\s+/` (digits, a dot, whitespace): the remainder
after the match, or none. -/
def stripNumHeaderChars (l : List Char) : Option (List Char) :=
  let ds := l.takeWhile Char.isDigit
  if ds.isEmpty then none
  else
    match l.drop ds.length with
    | '.' :: rest => matchWsRun rest
    | _ => none

/-- JS `line.replace(hashHeaderRegex, '')`: the line unchanged when the
regex does not match. -/
def replaceHashHeader (line : String) : String :=
  match stripHashHeaderChars line.data with
  | some r => String.mk r
  | none => line

/-- JS `line.replace(numHeaderRegex, '')`. -/
def replaceNumHeader (line : String) : String :=
  match stripNumHeaderChars line.data with
  | some r => String.mk r
  | none => line

/-- src/src/index.ts line 133: a trimmed line opens a new slide when it
matches either header regex. -/
def isSlideTitleLine (line : String) : Bool :=
  (stripHashHeaderChars line.data).isSome || (stripNumHeaderChars line.data).isSome

/-- src/src/index.ts line 138: both replaces applied in sequence. -/
def slideTitleText (line : String) : String :=
  replaceNumHeader (replaceHashHeader line)

/-- The slide accumulation loop (src/src/index.ts lines 129-148):
each title line flushes the current slide and opens a new one; other
lines append to the current slide content followed by a newline; lines
before the first title line are dropped. -/
def parseLoop : List String → Option SlideData → List SlideData → List SlideData
  | [], cur, acc =>
    (match cur with
     | some s => acc ++ [s]
     | none => acc)
  | raw :: rest, cur, acc =>
    let line := jsTrim raw
    if isSlideTitleLine line then
      parseLoop rest (some ⟨slideTitleText line, ""⟩)
        (match cur with
         | some s => acc ++ [s]
         | none => acc)
    else
      match cur with
      | some s => parseLoop rest (some ⟨s.title, s.content ++ line ++ "\n"⟩) acc
      | none => parseLoop rest none acc

/-- `parseResponseToPresentationData` (src/src/index.ts lines 120-154):
non-blank lines, first line as title (with a default), slides from the
remaining lines, and a single catch-all slide when none was found. -/
def parseResponseToPresentationData (response : String) : PresentationData :=
  let lines := (jsSplitLines response).filter (fun l => jsTrim l ≠ "")
  let title :=
    match lines.head? with
    | some t => t
    | none => "Generated Presentation"
  let slides := parseLoop (lines.drop 1) none []
  { title := title
    slides := if slides.isEmpty then [⟨"Content", response⟩] else slides }

/-- The canned demo response for prompts mentioning AI in education
(src/src/index.ts lines 85-102). -/
def demoResponseAIEducation : String :=
  "# Benefits of AI in Education\n\n## 1. Personalized Learning\nAI can adapt to individual student needs, providing customized learning paths and content that matches each student\u0027s pace and learning style.\n\n## 2. Intelligent Tutoring Systems\nAI-powered tutoring systems can provide 24/7 support to students, offering immediate feedback and guidance on complex topics.\n\n## 3. Automated Assessment and Grading\nAI can streamline the grading process, providing faster feedback to students and freeing up teachers\u0027 time for more meaningful interactions.\n\n## 4. Enhanced Accessibility\nAI tools can make education more accessible through features like real-time transcription, language translation, and adaptive interfaces for students with disabilities.\n\n## 5. Data-Driven Insights\nAI analytics can help educators identify learning patterns, predict student performance, and make informed decisions about curriculum and instruction.\n\nThese advancements in AI technology are revolutionizing the educational landscape, making learning more effective, efficient, and inclusive for all students."

/-- The generic demo response tail (src/src/index.ts lines 106-117). -/
def genericDemoTail : String :=
  "\n\n## Introduction\nThis is a demonstration of the automated presentation creation system using AI-generated content.\n\n## Key Points\n- Point 1: Relevant information about the topic\n- Point 2: Supporting details and examples\n- Point 3: Benefits and applications\n\n## Conclusion\nThe automation successfully demonstrates the integration between LLM responses and presentation creation."

/-- `generateDemoResponse` (src/src/index.ts lines 82-118). -/
def generateDemoResponse (prompt : String) : String :=
  if jsIncludes (jsToLower prompt) "ai in education" then demoResponseAIEducation
  else "# Presentation: " ++ prompt ++ genericDemoTail

/-! ## The workflow orchestrator (src/src/index.ts lines 51-80) -/

/-- The observable stages of `automateFullWorkflow`. -/
inductive WorkflowStep
  | extractionAttempt
  | demoFallback
  | parseResponse
  | createPresentation
deriving Repr, DecidableEq

/-- The outcome of one `automateFullWorkflow` run. -/
structure WorkflowRun where
  steps : List WorkflowStep
  llmResponse : String
  presentation : PresentationData
deriving Repr, DecidableEq

/-- `automateFullWorkflow` (src/src/index.ts lines 51-80): extraction is
attempted inside a try/catch; on failure the catch substitutes
`generateDemoResponse prompt` and the flow continues; either way the
response is parsed and the creation stage runs.  The extraction outcome
is passed in, since it is produced against the live chat page. -/
def automateFullWorkflow (prompt : String) (extractionResult : Except String String) :
    WorkflowRun :=
  match extractionResult with
  | Except.ok r =>
    { steps := [WorkflowStep.extractionAttempt, WorkflowStep.parseResponse,
                WorkflowStep.createPresentation]
      llmResponse := r
      presentation := parseResponseToPresentationData r }
  | Except.error _ =>
    { steps := [WorkflowStep.extractionAttempt, WorkflowStep.demoFallback,
                WorkflowStep.parseResponse, WorkflowStep.createPresentation]
      llmResponse := generateDemoResponse prompt
      presentation := parseResponseToPresentationData (generateDemoResponse prompt) }

/-! ## Concrete DOM snapshots used by witnesses and counterexamples -/

/-- A page where no selector matches anything. -/
def emptyDom : Dom := ⟨fun _ => []⟩

/-- A long answer text used by the local-recovery witness. -/
def fallbackText : String :=
  "The automation extracted this answer from the final message container of the conversation view."

/-- A page exposing only a bare `.message` container: the chat-input and
send-button cascades exhaust, strategy 1 of extraction exhausts, and
strategy 2 finds the container. -/
def fallbackDom : Dom :=
  ⟨fun s =>
    match s with
    | ".message" => [⟨some fallbackText, true, true⟩]
    | _ => []⟩

/-- An enabled but invisible button matched by the first generate
descriptor. -/
def invisibleGenerateButton : DomElement := ⟨some "Generate", false, true⟩

/-- A visible, enabled button matched by the second generate
descriptor. -/
def visibleCreateButton : DomElement := ⟨some "Create", true, true⟩

/-- A page where the first generate descriptor matches an invisible
enabled button and the second a visible enabled one: the cascade must
skip the invisible candidate (its click raises and is swallowed) in
favour of the later visible one. -/
def generateDomInvisibleFirst : Dom :=
  ⟨fun s =>
    match s with
    | "button:has-text(\"Generate\")" => [invisibleGenerateButton]
    | "button:has-text(\"Create\")" => [visibleCreateButton]
    | _ => []⟩

/-- A long answer text for the strategy-order witness. -/
def orderWitnessText : String :=
  "The Eiffel Tower was completed in 1889 and remains one of the most visited monuments in the world."

/-- A page where strategy 1 exhausts and strategy 2 finds
`orderWitnessText` in the only `.message` container. -/
def orderWitnessDom : Dom :=
  ⟨fun s =>
    match s with
    | ".message" => [⟨some orderWitnessText, true, true⟩]
    | _ => []⟩

/-- A prompt (84 characters, not containing the literal
`Create a presentation`) submitted to the automation. -/
def c6SubmittedPrompt : String :=
  "Please prepare a detailed briefing about the history of the Eiffel Tower for tourists"

/-- A page where the only `.message` container is the user message
echoing `c6SubmittedPrompt`, and the structured selectors of strategy 1
match nothing. -/
def promptEchoDom : Dom :=
  ⟨fun s =>
    match s with
    | ".message" => [⟨some c6SubmittedPrompt, true, true⟩]
    | _ => []⟩

/-- A short answer with surrounding whitespace for the non-empty-result
witness. -/
def shortAnswerRaw : String := "  A short answer "

/-- A page where strategy 1 succeeds on the `.prose:last-child`
descriptor. -/
def shortAnswerDom : Dom :=
  ⟨fun s =>
    match s with
    | ".prose:last-child" => [⟨some shortAnswerRaw, true, true⟩]
    | _ => []⟩

/-- A page on which a login indicator (`input[type="email"]`) and a chat
indicator (the send-a-message textarea) are present at the same time;
both indicator lists of both revisions contain these selectors. -/
def bothIndicatorsDom : Dom :=
  ⟨fun s =>
    match s with
    | "input[type=\"email\"]" => [⟨none, true, true⟩]
    | "textarea[placeholder*=\"Send a message\"]" => [⟨none, true, true⟩]
    | _ => []⟩

/-! ## Poller theorems -/

/-- Invariant of the polling loop under an always-false predicate: from
any start time below `timeout + interval`, the run times out, and the
elapsed time at exit is at least `timeout` and below
`timeout + interval`. -/
theorem pollFrom_always_false (pred : Nat → Bool) (timeout interval : Nat)
    (hpos : 0 < interval) (hfalse : ∀ t, pred t = false) :
    ∀ fuel elapsed, timeout - elapsed ≤ fuel → elapsed < timeout + interval →
      (pollFrom pred timeout interval hpos elapsed).1 = PollOutcome.TimedOut ∧
      timeout ≤ (pollFrom pred timeout interval hpos elapsed).2 ∧
      (pollFrom pred timeout interval hpos elapsed).2 < timeout + interval := by
  intro fuel
  induction fuel with
  | zero =>
    intro elapsed hk he
    rw [pollFrom]
    have h : ¬ elapsed < timeout := by omega
    simp [h]
    omega
  | succ n ih =>
    intro elapsed hk he
    rw [pollFrom]
    by_cases h : elapsed < timeout
    · simp [h, hfalse elapsed]
      exact ih (elapsed + interval) (by omega) (by omega)
    · simp [h]
      omega

/-- Claim C7: a polling run whose predicate is false at every evaluation
returns TimedOut, never earlier than the configured timeout: the elapsed
time at exit is at least `timeout`, and the loop stops at the first tick
at which elapsed time reaches the timeout (strictly below
`timeout + interval`). -/
theorem pollUntil_always_false_times_out (pred : Nat → Bool) (timeout interval : Nat)
    (hpos : 0 < interval) (hfalse : ∀ t, pred t = false) :
    (pollUntil pred timeout interval hpos).1 = PollOutcome.TimedOut ∧
    timeout ≤ (pollUntil pred timeout interval hpos).2 ∧
    (pollUntil pred timeout interval hpos).2 < timeout + interval :=
  pollFrom_always_false pred timeout interval hpos hfalse timeout 0 (by omega) (by omega)

/-- Positivity fact used to instantiate the polling interval. -/
theorem pollInterval_three_pos : (0 : Nat) < 3 := by decide

/-- Witness for C7: with a 10 ms timeout and 3 ms interval and a
predicate that never holds, the run times out no earlier than 10 ms. -/
theorem pollUntil_always_false_times_out_witness :
    (pollUntil (fun _ => false) 10 3 pollInterval_three_pos).1 = PollOutcome.TimedOut ∧
    10 ≤ (pollUntil (fun _ => false) 10 3 pollInterval_three_pos).2 ∧
    (pollUntil (fun _ => false) 10 3 pollInterval_three_pos).2 < 13 :=
  pollUntil_always_false_times_out (fun _ => false) 10 3 pollInterval_three_pos
    (fun _ => rfl)

/-- Claim C8: a polling run whose predicate holds on the first
evaluation returns Satisfied with zero elapsed time — the predicate is
evaluated before the inter-tick sleep, so no sleep is executed. -/
theorem pollUntil_true_first_tick_no_sleep (pred : Nat → Bool) (timeout interval : Nat)
    (hpos : 0 < interval) (htrue : pred 0 = true) (htimeout : 0 < timeout) :
    pollUntil pred timeout interval hpos = (PollOutcome.Satisfied, 0) := by
  rw [pollUntil, pollFrom]
  simp [htimeout, htrue]

/-- Positivity fact used to instantiate the polling interval. -/
theorem pollInterval_two_pos : (0 : Nat) < 2 := by decide

/-- Witness for C8: an always-true predicate with a 5 ms timeout and
2 ms interval is satisfied at elapsed time zero. -/
theorem pollUntil_true_first_tick_no_sleep_witness :
    pollUntil (fun _ => true) 5 2 pollInterval_two_pos = (PollOutcome.Satisfied, 0) :=
  pollUntil_true_first_tick_no_sleep (fun _ => true) 5 2 pollInterval_two_pos rfl
    (by decide)

/-! ## Extraction pipeline lemmas -/

/-- The strategy-1 loop is the first-hit scan of `selectorAttempt` over
the cascade. -/
theorem tryResponseSelectors_eq (dom : Dom) :
    ∀ l, tryResponseSelectors dom l = l.findSome? (selectorAttempt dom) := by
  intro l
  induction l with
  | nil => rfl
  | cons s rest ih =>
    rw [List.findSome?_cons]
    simp only [tryResponseSelectors, selectorAttempt]
    cases hq : (dom.query s).head? with
    | none => simpa using ih
    | some e =>
      cases ht : e.textContent with
      | none => simp [ht, ih]
      | some t =>
        by_cases hlen : 0 < jsLength (jsTrim t)
        · simp [ht, hlen]
        · simp [ht, hlen, ih]

/-- Appending an element does not change the backward scan below the
original length. -/
theorem scanBackwardFrom_append (a : DomElement) :
    ∀ (l : List DomElement) (i : Nat), i < l.length →
      scanBackwardFrom (l ++ [a]) i = scanBackwardFrom l i := by
  intro l i
  induction i with
  | zero =>
    intro h
    show ((l ++ [a]).get? 0).bind qualifyingMessage = (l.get? 0).bind qualifyingMessage
    rw [List.get?_append h]
  | succ i ih =>
    intro h
    simp only [scanBackwardFrom]
    rw [List.get?_append h]
    cases ((l.get? (i + 1)).bind qualifyingMessage) with
    | some t => rfl
    | none => exact ih (by omega)

/-- The backward index walk started at the last index is the first-hit
scan of `qualifyingMessage` over the reversed list. -/
theorem scanBackwardFrom_eq_reverse (msgs : List DomElement) :
    scanBackwardFrom msgs (msgs.length - 1) =
      msgs.reverse.findSome? qualifyingMessage := by
  induction msgs using List.reverseRecOn with
  | nil => rfl
  | append_singleton l a ih =>
    have hlen : (l ++ [a]).length - 1 = l.length := by simp
    rw [hlen, List.reverse_append]
    cases l with
    | nil =>
      simp only [scanBackwardFrom, List.nil_append, List.reverse_nil]
      cases hq : qualifyingMessage a <;>
        simp [List.findSome?_cons, hq, scanBackwardFrom]
    | cons m l2 =>
      have hga : ((m :: l2) ++ [a]).get? (l2.length + 1) = some a := by
        have := List.get?_concat_length (m :: l2) a
        simpa using this
      simp only [List.length_cons, scanBackwardFrom, hga, Option.some_bind]
      cases hq : qualifyingMessage a with
      | some t => simp [List.findSome?_cons, hq]
      | none =>
        rw [scanBackwardFrom_append a (m :: l2) l2.length (by simp)]
        have hl2 : (m :: l2).length - 1 = l2.length := by simp
        rw [hl2] at ih
        simp [List.findSome?_cons, hq, ih]

/-- The strategy-2 loop is the first-hit scan of `containerScan` over
the container shapes. -/
theorem structuralScanLoop_eq (dom : Dom) :
    ∀ l, structuralScanLoop dom l = l.findSome? (containerScan dom) := by
  intro l
  induction l with
  | nil => rfl
  | cons s rest ih =>
    rw [List.findSome?_cons]
    simp only [structuralScanLoop]
    cases he : (dom.query s).isEmpty with
    | true =>
      have hnil : dom.query s = [] := by simpa using he
      simp [containerScan, hnil, ih]
    | false =>
      rw [scanBackwardFrom_eq_reverse]
      simp only [containerScan]
      cases hr : (dom.query s).reverse.findSome? qualifyingMessage <;> simp [hr, ih]

/-- `extractLatestResponse` seen through the three strategy results. -/
theorem extract_eq_strategies (dom : Dom) :
    extractLatestResponse dom =
      (match strategyOne dom with
       | some t => Except.ok (t, Strategy.selectorCascade)
       | none =>
         match strategyTwo dom with
         | some t => Except.ok (t, Strategy.structuralScan)
         | none =>
           match strategyThree dom with
           | some t => Except.ok (t, Strategy.pageTextMining)
           | none => Except.error extractionFailedMessage) := by
  unfold extractLatestResponse strategyOne strategyTwo strategyThree
  rw [tryResponseSelectors_eq, structuralScanLoop_eq]

/-- A successful selector attempt returns text of positive length (its
trim was required to be non-empty). -/
theorem selectorAttempt_pos (dom : Dom) (s t : String)
    (h : selectorAttempt dom s = some t) : 0 < jsLength t := by
  unfold selectorAttempt at h
  cases hq : (dom.query s).head? with
  | none => rw [hq] at h; simp at h
  | some e =>
    rw [hq] at h
    simp only [Option.some_bind] at h
    cases ht : e.textContent with
    | none => rw [ht] at h; simp at h
    | some raw =>
      rw [ht] at h
      simp only [Option.some_bind] at h
      split at h
      · rename_i hpos
        injection h with h
        rw [← h]
        exact hpos
      · simp at h

/-- A qualifying strategy-2 message has more than 50 characters. -/
theorem qualifyingMessage_len (e : DomElement) (t : String)
    (h : qualifyingMessage e = some t) : 50 < jsLength t := by
  unfold qualifyingMessage at h
  cases ht : e.textContent with
  | none => rw [ht] at h; simp at h
  | some raw =>
    rw [ht] at h
    simp only at h
    split at h
    · rename_i hcond
      simp only [Bool.and_eq_true, decide_eq_true_eq] at hcond
      injection h with h
      rw [← h]
      exact hcond.1.2
    · simp at h

/-- Strategy 1 only returns text of positive length. -/
theorem strategyOne_pos (dom : Dom) (t : String)
    (h : strategyOne dom = some t) : 0 < jsLength t := by
  obtain ⟨s, _, ha⟩ := List.exists_of_findSome?_eq_some h
  exact selectorAttempt_pos dom s t ha

/-- Strategy 2 only returns text of more than 50 characters. -/
theorem strategyTwo_len (dom : Dom) (t : String)
    (h : strategyTwo dom = some t) : 50 < jsLength t := by
  obtain ⟨s, _, hc⟩ := List.exists_of_findSome?_eq_some h
  unfold containerScan at hc
  obtain ⟨e, _, hq⟩ := List.exists_of_findSome?_eq_some hc
  exact qualifyingMessage_len e t hq

/-- Strategy 3 only returns a line of more than 100 characters. -/
theorem strategyThree_len (dom : Dom) (t : String)
    (h : strategyThree dom = some t) : 100 < jsLength t := by
  unfold strategyThree at h
  cases hb : pageBodyText dom with
  | none => rw [hb] at h; simp at h
  | some pt =>
    rw [hb] at h
    simp only [Option.some_bind] at h
    unfold minePageTextLines at h
    have hmem := List.mem_of_getLast?_eq_some h
    have hfil := (List.mem_filter.mp hmem).2
    simp only [Bool.and_eq_true, decide_eq_true_eq] at hfil
    exact hfil.1.1.1.1

/-- Claim C4: `extractLatestResponse` runs its three strategies in fixed
order against the same DOM snapshot and returns the result of strategy
k only if every earlier strategy produced an empty result (and the
returned value is exactly that produced by strategy k). -/
theorem extract_strategy_order (dom : Dom) (t : String) :
    (extractLatestResponse dom = Except.ok (t, Strategy.structuralScan) →
      strategyOne dom = none ∧ strategyTwo dom = some t) ∧
    (extractLatestResponse dom = Except.ok (t, Strategy.pageTextMining) →
      strategyOne dom = none ∧ strategyTwo dom = none ∧ strategyThree dom = some t) ∧
    (extractLatestResponse dom = Except.ok (t, Strategy.selectorCascade) →
      strategyOne dom = some t) := by
  rw [extract_eq_strategies]
  cases h1 : strategyOne dom <;> cases h2 : strategyTwo dom <;>
    cases h3 : strategyThree dom <;> simp

/-- Witness for C4: on `orderWitnessDom` extraction returns the
strategy-2 result, and indeed strategy 1 was empty while strategy 2
produced exactly that text. -/
theorem extract_strategy_order_witness :
    strategyOne orderWitnessDom = none ∧ strategyTwo orderWitnessDom = some orderWitnessText :=
  (extract_strategy_order orderWitnessDom orderWitnessText).1 rfl

/-- Claim C5: extraction fails with the extraction-failed error exactly
when all three strategies return empty for the DOM snapshot; whenever
any strategy produces a result, extraction returns normally. -/
theorem extract_error_iff_all_strategies_empty (dom : Dom) :
    extractLatestResponse dom = Except.error extractionFailedMessage ↔
      (strategyOne dom = none ∧ strategyTwo dom = none ∧ strategyThree dom = none) := by
  rw [extract_eq_strategies]
  cases h1 : strategyOne dom <;> cases h2 : strategyTwo dom <;>
    cases h3 : strategyThree dom <;> simp

/-- Claim C10: every successful extraction result has positive length
(strategy 1 requires non-empty trimmed text, strategy 2 more than 50
characters, strategy 3 a line of more than 100 characters). -/
theorem extract_result_nonempty (dom : Dom) (t : String) (k : Strategy)
    (h : extractLatestResponse dom = Except.ok (t, k)) : 0 < jsLength t := by
  rw [extract_eq_strategies] at h
  cases h1 : strategyOne dom with
  | some t1 =>
    rw [h1] at h
    simp only [Except.ok.injEq, Prod.mk.injEq] at h
    rw [← h.1]
    exact strategyOne_pos dom t1 h1
  | none =>
    rw [h1] at h
    cases h2 : strategyTwo dom with
    | some t2 =>
      rw [h2] at h
      simp only [Except.ok.injEq, Prod.mk.injEq] at h
      rw [← h.1]
      have := strategyTwo_len dom t2 h2
      omega
    | none =>
      rw [h2] at h
      cases h3 : strategyThree dom with
      | some t3 =>
        rw [h3] at h
        simp only [Except.ok.injEq, Prod.mk.injEq] at h
        rw [← h.1]
        have := strategyThree_len dom t3 h3
        omega
      | none => rw [h3] at h; simp at h

/-- Witness for C10: on `shortAnswerDom` extraction succeeds via
strategy 1 and the returned text has positive length. -/
theorem extract_result_nonempty_witness : 0 < jsLength "A short answer" :=
  extract_result_nonempty shortAnswerDom "A short answer" Strategy.selectorCascade rfl

/-- Claim C6 (code bug): strategy 2 filters echoes of the hardcoded
default prompt prefix `Create a presentation` instead of the prompt the
automation was invoked with.  On `promptEchoDom`, whose only `.message`
container is the user message echoing the submitted prompt
`c6SubmittedPrompt`, extraction returns that echoed prompt itself via
the structural scan, although the prompt is 84 characters long and the
source comment says messages containing the submitted prompt are
skipped. -/
theorem prompt_echo_returned_by_structural_scan :
    strategyTwo promptEchoDom = some c6SubmittedPrompt ∧
    extractLatestResponse promptEchoDom
      = Except.ok (c6SubmittedPrompt, Strategy.structuralScan) ∧
    jsIncludes c6SubmittedPrompt "Create a presentation" = false ∧
    50 < jsLength c6SubmittedPrompt := by
  refine ⟨rfl, rfl, rfl, by decide⟩

/-! ## Cascade exhaustion behaviour (claims C2 and C3) -/

/-- Counterexample for C2: when the chat-input cascade exhausts (no
selector matches anything), the failure is not a quiet empty result —
`sendPromptAndGetResponse` raises the chat-input error, which propagates
to the orchestrator (where `automateFullWorkflow` catches it). -/
theorem chat_input_cascade_exhaustion_raises_cx :
    findChatInput emptyDom = none ∧
    sendPromptAndGetResponse emptyDom = Except.error chatInputNotFoundMessage :=
  ⟨rfl, rfl⟩

/-- Claim C2 as amended: cascade exhaustion in the send step and inside
extraction is recovered locally — send-button exhaustion falls back to
the Enter key, and strategy-1 exhaustion falls through to the structural
scan — but exhaustion of the chat-input cascade raises an error to the
caller. -/
theorem cascade_exhaustion_fallbacks (dom : Dom) :
    (findSendButton dom = none → sendMessage dom = SendMethod.viaEnterKey) ∧
    (findChatInput dom = none →
      sendPromptAndGetResponse dom = Except.error chatInputNotFoundMessage) ∧
    (tryResponseSelectors dom responseSelectors = none →
      ∀ t, structuralScanLoop dom messageSelectors = some t →
        extractLatestResponse dom = Except.ok (t, Strategy.structuralScan)) := by
  refine ⟨?_, ?_, ?_⟩
  · intro h
    unfold sendMessage
    rw [h]
  · intro h
    unfold sendPromptAndGetResponse locateChatInput
    rw [h]
  · intro h1 t h2
    unfold extractLatestResponse
    rw [h1, h2]

/-- Witness for the amended C2: on `fallbackDom` the send cascade falls
back to the Enter key, the chat-input cascade raises, and strategy-1
exhaustion falls through to a successful structural scan. -/
theorem cascade_exhaustion_fallbacks_witness :
    sendMessage fallbackDom = SendMethod.viaEnterKey ∧
    sendPromptAndGetResponse fallbackDom = Except.error chatInputNotFoundMessage ∧
    extractLatestResponse fallbackDom = Except.ok (fallbackText, Strategy.structuralScan) :=
  ⟨(cascade_exhaustion_fallbacks fallbackDom).1 rfl,
   (cascade_exhaustion_fallbacks fallbackDom).2.1 rfl,
   (cascade_exhaustion_fallbacks fallbackDom).2.2 rfl fallbackText rfl⟩

/-- The generate cascade only returns buttons that are both visible and
enabled (the click actionability requirement), and the result comes
from the first descriptor whose first match passes both tests: every
earlier descriptor either matched nothing or has a first match that is
invisible or disabled. -/
theorem findGenerateButtonLoop_spec (dom : Dom) :
    ∀ l,
      (∀ b, findGenerateButtonLoop dom l = some b →
        b.visible = true ∧ b.enabled = true ∧
        ∃ pre s post, l = pre ++ s :: post ∧
          (dom.query s).head? = some b ∧
          ∀ s2 ∈ pre, ∀ c, (dom.query s2).head? = some c →
            c.visible = false ∨ c.enabled = false) ∧
      (findGenerateButtonLoop dom l = none ↔
        ∀ s ∈ l, ∀ c, (dom.query s).head? = some c →
          c.visible = false ∨ c.enabled = false) := by
  intro l
  induction l with
  | nil =>
    constructor
    · intro b h
      simp [findGenerateButtonLoop] at h
    · simp [findGenerateButtonLoop]
  | cons s rest ih =>
    obtain ⟨ihsome, ihnone⟩ := ih
    constructor
    · intro b h
      simp only [findGenerateButtonLoop] at h
      cases hq : (dom.query s).head? with
      | none =>
        rw [hq] at h
        obtain ⟨hv, he, pre, s1, post, heq, hhd, hpre⟩ := ihsome b h
        refine ⟨hv, he, s :: pre, s1, post, by rw [heq, List.cons_append], hhd, ?_⟩
        intro s2 hs2 c hc
        rcases List.mem_cons.mp hs2 with rfl | hmem
        · rw [hq] at hc; cases hc
        · exact hpre s2 hmem c hc
      | some cb =>
        rw [hq] at h
        by_cases hce : cb.enabled = true
        · by_cases hcv : cb.visible = true
          · simp [hce, hcv] at h
            refine ⟨?_, ?_, [], s, rest, rfl, ?_, ?_⟩
            · rw [← h]; exact hcv
            · rw [← h]; exact hce
            · rw [← h]; exact hq
            · intro s2 hs2; simp at hs2
          · simp [hce, hcv] at h
            obtain ⟨hv, he, pre, s1, post, heq, hhd, hpre⟩ := ihsome b h
            refine ⟨hv, he, s :: pre, s1, post, by rw [heq, List.cons_append], hhd, ?_⟩
            intro s2 hs2 c hc
            rcases List.mem_cons.mp hs2 with rfl | hmem
            · rw [hq] at hc
              injection hc with hc
              rw [← hc]
              left
              simp at hcv
              exact hcv
            · exact hpre s2 hmem c hc
        · simp [hce] at h
          obtain ⟨hv, he, pre, s1, post, heq, hhd, hpre⟩ := ihsome b h
          refine ⟨hv, he, s :: pre, s1, post, by rw [heq, List.cons_append], hhd, ?_⟩
          intro s2 hs2 c hc
          rcases List.mem_cons.mp hs2 with rfl | hmem
          · rw [hq] at hc
            injection hc with hc
            rw [← hc]
            right
            simp at hce
            exact hce
          · exact hpre s2 hmem c hc
    · simp only [findGenerateButtonLoop]
      cases hq : (dom.query s).head? with
      | none =>
        constructor
        · intro h s2 hs2 c hc
          rcases List.mem_cons.mp hs2 with rfl | hmem
          · rw [hq] at hc; cases hc
          · exact (ihnone.mp h) s2 hmem c hc
        · intro h
          exact ihnone.mpr (fun s2 hs2 => h s2 (List.mem_cons_of_mem _ hs2))
      | some cb =>
        by_cases hce : cb.enabled = true
        · by_cases hcv : cb.visible = true
          · constructor
            · intro h
              simp [hce, hcv] at h
            · intro h
              rcases h s (List.mem_cons_self _ _) cb hq with hv | he
              · rw [hv] at hcv; exact Bool.noConfusion hcv
              · rw [he] at hce; exact Bool.noConfusion hce
          · constructor
            · intro h s2 hs2 c hc
              simp [hce, hcv] at h
              rcases List.mem_cons.mp hs2 with rfl | hmem
              · rw [hq] at hc
                injection hc with hc
                rw [← hc]
                left
                simp at hcv
                exact hcv
              · exact (ihnone.mp h) s2 hmem c hc
            · intro h
              simp [hce, hcv]
              exact ihnone.mpr (fun s2 hs2 => h s2 (List.mem_cons_of_mem _ hs2))
        · constructor
          · intro h s2 hs2 c hc
            simp [hce] at h
            rcases List.mem_cons.mp hs2 with rfl | hmem
            · rw [hq] at hc
              injection hc with hc
              rw [← hc]
              right
              simp at hce
              exact hce
            · exact (ihnone.mp h) s2 hmem c hc
          · intro h
            simp [hce]
            exact ihnone.mpr (fun s2 hs2 => h s2 (List.mem_cons_of_mem _ hs2))

/-- Claim C3: for every DOM snapshot, the generate/create cascade
returns the first match across the ordered descriptors that is both
visible and non-disabled — the first matching instance of the first
descriptor whose first match passes both tests, per the cascade
invariant of one candidate (the first matching instance) per
descriptor — and returns None exactly when no descriptor has such a
match; an invisible or disabled candidate is skipped (its click raises
and the error is swallowed, or the enabled test fails) in favour of the
later descriptors. -/
theorem generate_button_first_visible_enabled (dom : Dom) :
    (∀ b, findAndClickGenerateButton dom = some b →
      b.visible = true ∧ b.enabled = true ∧
      ∃ pre s post, generateButtons = pre ++ s :: post ∧
        (dom.query s).head? = some b ∧
        ∀ s2 ∈ pre, ∀ c, (dom.query s2).head? = some c →
          c.visible = false ∨ c.enabled = false) ∧
    (findAndClickGenerateButton dom = none ↔
      ∀ s ∈ generateButtons, ∀ c, (dom.query s).head? = some c →
        c.visible = false ∨ c.enabled = false) :=
  findGenerateButtonLoop_spec dom generateButtons

/-- Witness for C3: on `generateDomInvisibleFirst` the cascade skips
the invisible enabled candidate of the first descriptor and returns the
visible enabled candidate of the second; the theorem applied there
yields its visibility, its enabled state and the first-usable-descriptor
decomposition of the cascade. -/
theorem generate_button_first_visible_enabled_witness :
    visibleCreateButton.visible = true ∧ visibleCreateButton.enabled = true ∧
    ∃ pre s post, generateButtons = pre ++ s :: post ∧
      (generateDomInvisibleFirst.query s).head? = some visibleCreateButton ∧
      ∀ s2 ∈ pre, ∀ c, (generateDomInvisibleFirst.query s2).head? = some c →
        c.visible = false ∨ c.enabled = false :=
  (generate_button_first_visible_enabled generateDomInvisibleFirst).1
    visibleCreateButton rfl

/-! ## Login-check theorems (claim C9) -/

/-- Counterexample for C9: in the first extractor revision the login-URL
pre-check runs before any indicator check.  On `bothIndicatorsDom` both
a login indicator and a chat indicator are present, yet with the page
URL on the auth route and credentials configured the flow enters the
credentialed-login branch instead of skipping login. -/
theorem login_url_overrides_chat_indicators_cx :
    anySelectorMatches bothIndicatorsDom chatIndicatorsV1 = true ∧
    anySelectorMatches bothIndicatorsDom loginIndicatorsV1 = true ∧
    handleLoginIfRequiredV1 "http://localhost:3000/auth" bothIndicatorsDom true
      = LoginAction.attemptLogin ∧
    handleLoginIfRequiredV1 "http://localhost:3000/auth" bothIndicatorsDom true
      ≠ LoginAction.proceedWithoutLogin := by
  refine ⟨rfl, rfl, rfl, ?_⟩
  decide

/-- Claim C9 as amended: when login indicators and chat indicators are
both present in the DOM, the chat-indicator check takes precedence and
the flow proceeds without login — unconditionally in the second
extractor revision, and in the first revision provided the page URL does
not match a login-route pattern (`/auth`, `/login`, `/signin`), which is
consulted before any indicator. -/
theorem chat_indicators_take_precedence (dom : Dom) (url : String) (hasCreds : Bool)
    (hchat1 : anySelectorMatches dom chatIndicatorsV1 = true)
    (hchat2 : anySelectorMatches dom chatIndicatorsV2 = true)
    (hurl : loginUrlDetected url = false) :
    handleLoginIfRequiredV1 url dom hasCreds = LoginAction.proceedWithoutLogin ∧
    handleLoginIfRequiredV2 dom hasCreds = LoginAction.proceedWithoutLogin := by
  unfold handleLoginIfRequiredV1 handleLoginIfRequiredV2
  rw [hurl, hchat1, hchat2]
  simp

/-- Witness for the amended C9: on `bothIndicatorsDom` (login and chat
indicators simultaneously present) under a non-login URL, both
revisions proceed without login. -/
theorem chat_indicators_take_precedence_witness :
    handleLoginIfRequiredV1 "http://localhost:3000/" bothIndicatorsDom true
      = LoginAction.proceedWithoutLogin ∧
    handleLoginIfRequiredV2 bothIndicatorsDom true
      = LoginAction.proceedWithoutLogin :=
  chat_indicators_take_precedence bothIndicatorsDom "http://localhost:3000/" true
    rfl rfl rfl

/-! ## Workflow orchestration theorems (claim C1) -/

/-- Counterexample for C1: extraction failure is not fatal.  With the
extraction step failing (here with the extraction-failed error), the
workflow still reaches the presentation-creation stage, against the
claim that it aborts before it. -/
theorem extraction_failure_still_reaches_creation_cx :
    WorkflowStep.createPresentation ∈
      (automateFullWorkflow "Create a presentation about renewable energy with 5 slides"
        (Except.error extractionFailedMessage)).steps ∧
    (automateFullWorkflow "Create a presentation about renewable energy with 5 slides"
        (Except.error extractionFailedMessage)).steps
      = [WorkflowStep.extractionAttempt, WorkflowStep.demoFallback,
         WorkflowStep.parseResponse, WorkflowStep.createPresentation] := by
  refine ⟨?_, rfl⟩
  decide

/-- Claim C1 as amended: whenever extraction fails, the workflow does
not abort — it substitutes the demo response generated from the prompt,
parses it, and proceeds to the presentation-creation stage. -/
theorem extraction_failure_uses_demo_and_proceeds (prompt msg : String) :
    (automateFullWorkflow prompt (Except.error msg)).steps
      = [WorkflowStep.extractionAttempt, WorkflowStep.demoFallback,
         WorkflowStep.parseResponse, WorkflowStep.createPresentation] ∧
    (automateFullWorkflow prompt (Except.error msg)).llmResponse
      = generateDemoResponse prompt ∧
    (automateFullWorkflow prompt (Except.error msg)).presentation
      = parseResponseToPresentationData (generateDemoResponse prompt) ∧
    WorkflowStep.createPresentation ∈ (automateFullWorkflow prompt (Except.error msg)).steps := by
  refine ⟨rfl, rfl, rfl, ?_⟩
  simp [automateFullWorkflow]
